import Mathlib

/-!
Shallow embedding of the `file-bundle` utility (src/src/main.rs) and proofs
about its file-selection and bundling behaviour.

Modelling conventions:

* Paths, patterns and separators are Lean `String`s.
* The `glob` crate calls in `should_include_file` are abstracted by an
  environment `GlobEnv : String → String → GlobResult`: applied to the full
  pattern string (source root joined with the pattern body, as built on
  line 113 of main.rs) and a candidate file path, it reports whether
  `glob_with` compiled the pattern and whether the pattern's filesystem
  expansion contains that path (line 119-121).  A `GlobResult.err` models a
  `glob_with` compilation error, which in the crate depends only on the
  pattern text.
* `fs::read_to_string` (line 95) returns `Err` on I/O failure or invalid
  UTF-8; a walker-yielded file is modelled as `FileData` with
  `contents : Option String`, `none` meaning that read fails.
* The `ignore::WalkBuilder` (lines 77-86) is modelled as the configuration
  record `WalkBuilderConfig`; the crate's documented defaults enable the
  standard filters (hidden files skipped, `.gitignore`-style files honored).
  The walker yields entries whose path starts with the root it was built
  with (`entry.path()` is root-prefixed); the per-file loop of `main`
  (lines 88-102) is modelled over the list of regular-file entries the
  walker yields, in order.
* Output-file writes (`write!`, lines 94 and 96) are modelled as string
  accumulation; `File::create` (line 75) truncates the destination, and its
  failure (or a later read failure) is the only abort path of `main`.
-/

/-- Result of running `glob_with(full_pattern, options)` against one
candidate path: either the pattern compiled and matched (or not), or the
pattern failed to compile (main.rs line 119, 128). -/
inductive GlobResult where
  | ok (matched : Bool) : GlobResult
  | err : GlobResult
deriving DecidableEq, Repr

/-- Glob oracle: full pattern string and candidate file path to result. -/
abbrev GlobEnv := String → String → GlobResult

/-- `s.starts_with('!')` from main.rs line 111. -/
def starts_with_bang (s : String) : Bool :=
  s.data.head? = some '!'

/-- `s.trim_start_matches('!')` from main.rs lines 82 and 112: removes every
leading `!` character. -/
def trim_start_bangs (s : String) : String :=
  ⟨s.data.dropWhile (fun c => c = '!')⟩

/-- `base_dir.join(pattern)` from main.rs line 113: an absolute right
operand replaces the base, otherwise it is appended after a separator. -/
def path_join (base body : String) : String :=
  if body.data.head? = some '/' then body else base ++ "/" ++ body

/-- The diagnostic printed by main.rs line 129 for a pattern that failed to
compile (the crate's error detail is elided). -/
def glob_err_msg (p : String) : String :=
  "Error in glob pattern '" ++ p ++ "'"

/-- `should_include_file` (main.rs lines 108-135) together with the
diagnostics it prints: walks the patterns in list order; a pattern starting
with `!` whose (bang-stripped, root-joined) glob expansion contains
`file_path` forces `false`, a non-`!` pattern whose expansion contains it
forces `true`; a pattern that fails to compile is reported and skipped
(lines 128-131); an exhausted list yields `false` (line 134).  The unused
`relative_path` binding of line 109 has no observable effect and is
omitted.  First component: the returned decision; second: the diagnostics
in emission order. -/
def should_include_file_impl (env : GlobEnv) (file_path : String)
    (base_dir : String) : List String → Bool × List String
  | [] => (false, [])
  | p :: rest =>
    let is_exclude := starts_with_bang p
    let body := trim_start_bangs p
    let full_pattern := path_join base_dir body
    match env full_pattern file_path with
    | GlobResult.ok matched =>
      if is_exclude && matched then (false, [])
      else if !is_exclude && matched then (true, [])
      else should_include_file_impl env file_path base_dir rest
    | GlobResult.err =>
      let r := should_include_file_impl env file_path base_dir rest
      (r.1, glob_err_msg body :: r.2)

/-- The boolean decision of `should_include_file` (main.rs line 108),
argument order as in the source: path, patterns, base directory. -/
def should_include_file (env : GlobEnv) (file_path : String)
    (patterns : List String) (base_dir : String) : Bool :=
  (should_include_file_impl env file_path base_dir patterns).1

/-- The diagnostics `should_include_file` emits on stderr. -/
def should_include_file_diags (env : GlobEnv) (file_path : String)
    (patterns : List String) (base_dir : String) : List String :=
  (should_include_file_impl env file_path base_dir patterns).2

/-- One regular-file entry yielded by the walker: its path as returned by
`entry.path()` (root-prefixed), and the result of `fs::read_to_string`
(`none` models a read error: unreadable file or invalid UTF-8). -/
structure FileData where
  path : String
  contents : Option String
deriving DecidableEq, Repr

/-- The per-file loop of `main` (main.rs lines 88-102): for each
walker-yielded file passing `should_include_file`, write
`"{file_sep} {path}\n"` (line 94), then read the file — a read failure
propagates via `?`, returning the error with the output written so far —
then write `"{contents}\n"` (line 96).  `acc` is the output file content
accumulated so far. -/
def write_records (file_sep : String) (env : GlobEnv) (src_dir : String)
    (src_globs : List String) (files : List FileData) (acc : String) :
    Except String String :=
  match files with
  | [] => Except.ok acc
  | f :: rest =>
    if should_include_file env f.path src_globs src_dir then
      let acc' := acc ++ file_sep ++ " " ++ f.path ++ "\n"
      match f.contents with
      | some c => write_records file_sep env src_dir src_globs rest (acc' ++ c ++ "\n")
      | none => Except.error acc'
    else write_records file_sep env src_dir src_globs rest acc

/-- `Path::new(&args.out_dir).join(bundle_name + dst_ext)` (main.rs
line 74). -/
def out_path (out_dir bundle_name dst_ext : String) : String :=
  path_join out_dir (bundle_name ++ dst_ext)

/-- Observable outcome of a run: the content of the output file after the
run (`none` if it was never created and did not exist), and whether `main`
returned `Ok`. -/
structure RunState where
  out_file : Option String
  succeeded : Bool
deriving DecidableEq, Repr

/-- `main` (main.rs lines 71-106) at the level the claims need:
`File::create` (line 75) truncates the output file before anything else;
if it fails, `?` aborts with the previous file content `prev_out`
untouched.  Otherwise the per-file loop runs; a read failure makes `main`
return the error with the partial output on disk, and otherwise the run
succeeds with the full output.  The separator `args.file_sep` is used
exactly as parsed by clap (lines 64-65, 94): no escape processing exists
anywhere in the source. -/
def main_run (prev_out : Option String) (create_ok : Bool)
    (file_sep src_dir : String) (src_globs : List String) (env : GlobEnv)
    (files : List FileData) : RunState :=
  if create_ok then
    match write_records file_sep env src_dir src_globs files "" with
    | Except.ok s => ⟨some s, true⟩
    | Except.error s => ⟨some s, false⟩
  else ⟨prev_out, false⟩

/-- Whether a single pattern (bang-stripped, root-joined) compiled and its
expansion contains the path — the per-pattern match test of main.rs
line 121, with a non-compiling pattern contributing no match. -/
def pattern_matched (env : GlobEnv) (base_dir path p : String) : Bool :=
  match env (path_join base_dir (trim_start_bangs p)) path with
  | GlobResult.ok b => b
  | GlobResult.err => false

/-- Spec-side restatement of the first-match policy, written from the
claim's words: evaluate patterns in list order; decide on the first
pattern whose expansion contains the path — Exclude if it starts with
`!`, Include otherwise — and Exclude when no pattern matches. -/
def first_match_spec (env : GlobEnv) (base_dir path : String) :
    List String → Bool
  | [] => false
  | p :: rest =>
    if pattern_matched env base_dir path p then !(starts_with_bang p)
    else first_match_spec env base_dir path rest

/-- Spec-side restatement of the last-match ("override") policy, written
from the claim's words: the decision is determined by the last pattern in
list order whose expansion contains the path; no match means Exclude. -/
def last_match_spec (env : GlobEnv) (base_dir path : String)
    (patterns : List String) : Bool :=
  match patterns.reverse.find? (pattern_matched env base_dir path) with
  | some p => !(starts_with_bang p)
  | none => false

/-- Spec-side separator escape expansion, written from the claim's words:
every occurrence of the literal two-character sequence backslash-n becomes
a newline character. -/
def expand_escapes : List Char → List Char
  | [] => []
  | '\\' :: 'n' :: rest => '\n' :: expand_escapes rest
  | c :: rest => c :: expand_escapes rest

/-- `expand_escapes` on strings. -/
def expand_escapes_str (s : String) : String :=
  ⟨expand_escapes s.data⟩

/-- Configuration of the `ignore::WalkBuilder` (main.rs lines 77-86).
`skip_hidden` and `use_git_ignore` are the crate's standard filters:
whether hidden (dot-) entries are skipped and whether `.gitignore`-style
rules are honored.  `ignore_paths` collects arguments of `add_ignore`
(line 82) and `custom_ignore_filenames` those of
`add_custom_ignore_filename` (line 84). -/
structure WalkBuilderConfig where
  skip_hidden : Bool
  use_git_ignore : Bool
  ignore_paths : List String
  custom_ignore_filenames : List String
deriving DecidableEq, Repr

/-- `WalkBuilder::new(src_dir)` defaults, per the ignore crate's
documentation: all standard filters enabled — hidden entries skipped and
`.gitignore`-style files honored — with no extra ignore files. -/
def walk_builder_new : WalkBuilderConfig :=
  ⟨true, true, [], []⟩

/-- One iteration of the walker-configuration loop of `main` (main.rs
lines 80-86): a `!`-prefixed glob is passed (bang-stripped) to
`add_ignore`, any other glob to `add_custom_ignore_filename`.  Neither
call touches the standard filters. -/
def add_glob (w : WalkBuilderConfig) (g : String) : WalkBuilderConfig :=
  if starts_with_bang g then
    { w with ignore_paths := w.ignore_paths ++ [trim_start_bangs g] }
  else
    { w with custom_ignore_filenames := w.custom_ignore_filenames ++ [g] }

/-- The walker configuration `main` builds before traversal (main.rs
lines 78-86). -/
def configure_walker (src_globs : List String) : WalkBuilderConfig :=
  src_globs.foldl add_glob walk_builder_new

/-! ## Concrete environments and inputs used by witnesses and counterexamples -/

/-- A glob oracle in which every pattern compiles and matches every path. -/
def env_all : GlobEnv := fun _ _ => GlobResult.ok true

/-- A glob oracle for a root `s` containing exactly `s/a.txt`: the glob
`s/*.txt` expands to `[s/a.txt]` and every other pattern to nothing. -/
def env_txt : GlobEnv := fun pat path =>
  GlobResult.ok (pat == "s/*.txt" && path == "s/a.txt")

/-- A glob oracle for a root `s` containing exactly `s/a.bin`: the glob
`s/*.bin` expands to `[s/a.bin]` and every other pattern to nothing. -/
def env_bin : GlobEnv := fun pat path =>
  GlobResult.ok (pat == "s/*.bin" && path == "s/a.bin")

/-- A glob oracle in which the pattern `s/[` fails to compile (an
unclosed character class), `s/*.txt` expands to `[s/a.txt]`, and every
other pattern expands to nothing. -/
def env_bad : GlobEnv := fun pat path =>
  if pat == "s/[" then GlobResult.err
  else GlobResult.ok (pat == "s/*.txt" && path == "s/a.txt")

/-- Decidable substring containment on strings, used to state that an
output does not contain a claimed record. -/
def contains_substring (s sub : String) : Bool :=
  (List.range (s.data.length + 1)).any (fun i => sub.data.isPrefixOf (s.data.drop i))

/-! ## Helper lemmas -/

lemma string_empty_append (s : String) : "" ++ s = s := rfl

lemma add_glob_skip_hidden (w : WalkBuilderConfig) (g : String) :
    (add_glob w g).skip_hidden = w.skip_hidden := by
  unfold add_glob; split <;> rfl

lemma add_glob_use_git_ignore (w : WalkBuilderConfig) (g : String) :
    (add_glob w g).use_git_ignore = w.use_git_ignore := by
  unfold add_glob; split <;> rfl

lemma foldl_add_glob_filters (gs : List String) (w : WalkBuilderConfig) :
    (gs.foldl add_glob w).skip_hidden = w.skip_hidden ∧
    (gs.foldl add_glob w).use_git_ignore = w.use_git_ignore := by
  induction gs generalizing w with
  | nil => exact ⟨rfl, rfl⟩
  | cons g gs ih =>
    simpa [List.foldl_cons, add_glob_skip_hidden, add_glob_use_git_ignore]
      using ih (add_glob w g)

/-! ## Claims -/

/-- C1.  Pattern precedence (first-match policy): `should_include_file`
evaluates patterns in list order and decides on the first pattern whose
expansion contains the path — Exclude if that pattern starts with `!`,
Include otherwise — and returns Exclude when no pattern matches; later
patterns never override an earlier match and no re-sorting happens. -/
theorem C1_first_match_policy (env : GlobEnv) (file_path base_dir : String)
    (patterns : List String) :
    should_include_file env file_path patterns base_dir =
      first_match_spec env base_dir file_path patterns := by
  induction patterns with
  | nil => rfl
  | cons p rest ih =>
    have ih' : (should_include_file_impl env file_path base_dir rest).1 =
        first_match_spec env base_dir file_path rest := ih
    cases h : env (path_join base_dir (trim_start_bangs p)) file_path with
    | ok b =>
      cases b <;> cases hb : starts_with_bang p <;>
        simp [should_include_file, should_include_file_impl,
          first_match_spec, pattern_matched, h, hb, ih']
    | err =>
      simp [should_include_file, should_include_file_impl,
        first_match_spec, pattern_matched, h, ih']

/-- C2, counterexample.  The last-match ("override") law fails on the
code: with every pattern matching, the list `["a", "!a"]` decides on the
first pattern (`Include`), while the last matching pattern is the exclude
`"!a"`. -/
theorem C2_counterexample :
    should_include_file env_all "x" ["a", "!a"] "." ≠
      last_match_spec env_all "." "x" ["a", "!a"] := by decide

/-- C2, amended.  The selection decision for a path depends only on the
first pattern in list order whose expansion contains it (`Include` unless
that pattern starts with `!`); if no pattern matches, the path is
excluded. -/
theorem C2_first_match_only (env : GlobEnv) (file_path base_dir : String)
    (patterns : List String) :
    should_include_file env file_path patterns base_dir =
      match patterns.find? (pattern_matched env base_dir file_path) with
      | some p => !(starts_with_bang p)
      | none => false := by
  induction patterns with
  | nil => rfl
  | cons p rest ih =>
    have ih' : (should_include_file_impl env file_path base_dir rest).1 =
        match rest.find? (pattern_matched env base_dir file_path) with
        | some q => !(starts_with_bang q)
        | none => false := ih
    cases h : env (path_join base_dir (trim_start_bangs p)) file_path with
    | ok b =>
      cases b <;> cases hb : starts_with_bang p <;>
        simp [should_include_file, should_include_file_impl, List.find?,
          pattern_matched, h, hb, ih']
    | err =>
      simp [should_include_file, should_include_file_impl, List.find?,
        pattern_matched, h, ih']

/-- C6, counterexample.  The walker built by `main` does not traverse
"raw": with patterns `["*.txt"]` (and indeed any patterns) the
`ignore::WalkBuilder` standard filters stay at their defaults, so hidden
files are skipped and `.gitignore`-style rules are honored implicitly. -/
theorem C6_counterexample :
    ¬ ((configure_walker ["*.txt"]).skip_hidden = false ∧
       (configure_walker ["*.txt"]).use_git_ignore = false) := by decide

/-- C6, amended.  For every run, the walker keeps the ignore crate's
default standard filters: hidden files are skipped and `.gitignore`-style
ignore rules are honored implicitly; the program offers no configuration
that disables (or enables) them — `main` only adds ignore-file paths and
custom ignore filenames. -/
theorem C6_default_filters (src_globs : List String) :
    (configure_walker src_globs).skip_hidden = true ∧
    (configure_walker src_globs).use_git_ignore = true :=
  foldl_add_glob_filters src_globs walk_builder_new

/-- C3, counterexample.  A selected file whose read fails (invalid UTF-8)
makes the run fail: with root `s` holding the non-UTF-8 file `s/a.bin`
and pattern `*.bin`, `main` returns the `read_to_string` error — the run
does not continue and no empty-body record is produced; the output holds
only the header line. -/
theorem C3_counterexample :
    (main_run (some "old") true "---" "s" ["*.bin"] env_bin
        [⟨"s/a.bin", none⟩]).succeeded = false ∧
    (main_run (some "old") true "---" "s" ["*.bin"] env_bin
        [⟨"s/a.bin", none⟩]).out_file = some "--- s/a.bin\n" := by
  exact ⟨rfl, rfl⟩

/-- C3, amended.  A selected file whose bytes are not valid UTF-8 makes
`fs::read_to_string` fail and `main` return that error: the run
terminates unsuccessfully with the file's header line written but no
content body, and no later file is processed; no empty-body record and no
diagnostic-and-continue behaviour exists. -/
theorem C3_read_failure_aborts (prev : Option String)
    (file_sep src_dir : String) (src_globs : List String) (env : GlobEnv)
    (f : FileData) (rest : List FileData)
    (hinc : should_include_file env f.path src_globs src_dir = true)
    (hread : f.contents = none) :
    main_run prev true file_sep src_dir src_globs env (f :: rest) =
      ⟨some (file_sep ++ " " ++ f.path ++ "\n"), false⟩ := by
  simp [main_run, write_records, hinc, hread, string_empty_append]

/-- C3, witness for `C3_read_failure_aborts`. -/
theorem C3_read_failure_aborts_witness :
    main_run (some "old") true "---" "s" ["*.bin"] env_bin
        [⟨"s/a.bin", none⟩, ⟨"s/z.bin", some "zz"⟩] =
      ⟨some ("---" ++ " " ++ "s/a.bin" ++ "\n"), false⟩ :=
  C3_read_failure_aborts (some "old") "---" "s" ["*.bin"] env_bin
    ⟨"s/a.bin", none⟩ [⟨"s/z.bin", some "zz"⟩] (by decide) rfl

/-- C4.  Evaluation of the code at the failing input: root `s` with
`s/a.txt` ("hello") and `s/b.log` ("x"), patterns `["*.txt"]`, separator
`"---"`.  The output is `"--- s/a.txt\nhello\n"` — the walker-yielded,
root-prefixed path — and does not contain the substring
`"--- a.txt\nhello\n"` that the claim (and the program's own help text,
main.rs lines 32-33) promises. -/
theorem C4_path_not_relative :
    main_run none true "---" "s" ["*.txt"] env_txt
        [⟨"s/a.txt", some "hello"⟩, ⟨"s/b.log", some "x"⟩] =
      ⟨some "--- s/a.txt\nhello\n", true⟩ ∧
    contains_substring "--- s/a.txt\nhello\n" "--- a.txt\nhello\n" = false := by
  exact ⟨rfl, by decide⟩

/-- C5, counterexample.  No separator escape expansion exists: with the
separator given as the four characters `##\n` (backslash-n literal), the
record begins with those four characters verbatim, not with `##` followed
by a real newline — the expanded form is not even a prefix of the
output. -/
theorem C5_counterexample :
    (main_run none true "##\\n" "s" ["*.txt"] env_txt
        [⟨"s/a.txt", some "hello"⟩]).out_file =
      some "##\\n s/a.txt\nhello\n" ∧
    (expand_escapes_str "##\\n").data.isPrefixOf
        "##\\n s/a.txt\nhello\n".data = false := by
  exact ⟨rfl, by decide⟩

/-- C5, amended.  The user-supplied separator is used verbatim in every
record: the literal two-character sequence backslash-n is not replaced by
a newline (no escape processing exists); a record is exactly the
separator as given, a space, the path, a newline, the content and a
newline. -/
theorem C5_separator_verbatim (prev : Option String)
    (file_sep src_dir : String) (src_globs : List String) (env : GlobEnv)
    (p c : String)
    (hinc : should_include_file env p src_globs src_dir = true) :
    main_run prev true file_sep src_dir src_globs env [⟨p, some c⟩] =
      ⟨some (file_sep ++ " " ++ p ++ "\n" ++ c ++ "\n"), true⟩ := by
  simp [main_run, write_records, hinc, string_empty_append]

/-- C5, witness for `C5_separator_verbatim`: the separator `##\n`
(backslash-n literal) appears verbatim in the record. -/
theorem C5_separator_verbatim_witness :
    main_run none true "##\\n" "s" ["*.txt"] env_txt
        [⟨"s/a.txt", some "hello"⟩] =
      ⟨some ("##\\n" ++ " " ++ "s/a.txt" ++ "\n" ++ "hello" ++ "\n"), true⟩ :=
  C5_separator_verbatim none "##\\n" "s" ["*.txt"] env_txt "s/a.txt" "hello"
    (by decide)

/-- C7.  A glob pattern that fails to compile never aborts evaluation: the
decision over a list containing it equals the decision over the list with
it removed (it contributes no match and evaluation continues with the
remaining patterns), and when evaluation reaches it the pattern is
reported on the diagnostic channel. -/
theorem C7_malformed_glob_skipped (env : GlobEnv) (file_path base_dir : String)
    (pre post : List String) (p : String)
    (h : env (path_join base_dir (trim_start_bangs p)) file_path = GlobResult.err) :
    should_include_file env file_path (pre ++ p :: post) base_dir =
      should_include_file env file_path (pre ++ post) base_dir ∧
    should_include_file_diags env file_path (p :: post) base_dir =
      glob_err_msg (trim_start_bangs p) ::
        should_include_file_diags env file_path post base_dir := by
  constructor
  · induction pre with
    | nil =>
      simp [should_include_file, should_include_file_impl, h]
    | cons q pre ih =>
      cases hq : env (path_join base_dir (trim_start_bangs q)) file_path with
      | ok b =>
        cases b <;> cases hb : starts_with_bang q <;>
          simp [should_include_file, should_include_file_impl,
            List.cons_append, hq, hb] <;> exact ih
      | err =>
        simp [should_include_file, should_include_file_impl,
          List.cons_append, hq]
        exact ih
  · simp [should_include_file_diags, should_include_file_impl, h]

/-- C7, witness for `C7_malformed_glob_skipped`: the unclosed character
class `[` under root `s`. -/
theorem C7_malformed_glob_skipped_witness :
    (should_include_file env_bad "s/a.txt" (["x"] ++ "[" :: ["*.txt"]) "s" =
      should_include_file env_bad "s/a.txt" (["x"] ++ ["*.txt"]) "s") ∧
    should_include_file_diags env_bad "s/a.txt" ("[" :: ["*.txt"]) "s" =
      glob_err_msg (trim_start_bangs "[") ::
        should_include_file_diags env_bad "s/a.txt" ["*.txt"] "s" :=
  C7_malformed_glob_skipped env_bad "s/a.txt" "s" ["x"] ["*.txt"] "["
    (by decide)

/-- C8, counterexample.  An invalid glob pattern does not abort the run:
with the non-compiling pattern `[` first in the list, the run still
completes successfully and writes the record selected by the remaining
pattern — contradicting "aborts the entire run before any per-file
processing begins, with no file records written". -/
theorem C8_counterexample :
    (main_run (some "prev") true "---" "s" ["[", "*.txt"] env_bad
        [⟨"s/a.txt", some "hello"⟩]).succeeded = true ∧
    (main_run (some "prev") true "---" "s" ["[", "*.txt"] env_bad
        [⟨"s/a.txt", some "hello"⟩]).out_file =
      some "--- s/a.txt\nhello\n" := by
  exact ⟨rfl, rfl⟩

/-- C8, amended.  Inability to create the output file aborts the entire
run before any per-file processing, leaving the previous output untouched
and writing no record; invalid glob pattern syntax, by contrast, does not
abort — patterns are compiled per file during evaluation and failures are
skipped, as the accompanying concrete run shows. -/
theorem C8_create_failure_aborts :
    (∀ (prev : Option String) (file_sep src_dir : String)
        (src_globs : List String) (env : GlobEnv) (files : List FileData),
        main_run prev false file_sep src_dir src_globs env files =
          ⟨prev, false⟩) ∧
    (main_run none true "---" "s" ["[", "*.txt"] env_bad
        [⟨"s/a.txt", some "hello"⟩]).succeeded = true := by
  exact ⟨fun _ _ _ _ _ _ => rfl, rfl⟩

/-- C9.  Non-atomic record writes: the separator+path header line is
written before the file's content is read, so whatever the output already
holds, a selected file whose read fails leaves the run with the error and
the output ending in that file's header line with no content body. -/
theorem C9_header_written_first (file_sep : String) (env : GlobEnv)
    (src_dir : String) (src_globs : List String) (f : FileData)
    (rest : List FileData) (acc : String)
    (hinc : should_include_file env f.path src_globs src_dir = true)
    (hread : f.contents = none) :
    write_records file_sep env src_dir src_globs (f :: rest) acc =
      Except.error (acc ++ file_sep ++ " " ++ f.path ++ "\n") := by
  simp [write_records, hinc, hread]

/-- C9, witness for `C9_header_written_first`. -/
theorem C9_header_written_first_witness :
    write_records "---" env_bin "s" ["*.bin"] [⟨"s/a.bin", none⟩] "pre\n" =
      Except.error ("pre\n" ++ "---" ++ " " ++ "s/a.bin" ++ "\n") :=
  C9_header_written_first "---" env_bin "s" ["*.bin"] ⟨"s/a.bin", none⟩ []
    "pre\n" (by decide) rfl

/-- C10.  The output file is created — truncating whatever was there —
before patterns are examined and traversal begins: whenever creation
succeeds, the final output-file content is independent of the previous
content (the previous bundle is destroyed even if the run fails later),
and the file exists afterwards. -/
theorem C10_output_truncated_first (prev : Option String)
    (file_sep src_dir : String) (src_globs : List String) (env : GlobEnv)
    (files : List FileData) :
    (main_run prev true file_sep src_dir src_globs env files).out_file =
      (main_run none true file_sep src_dir src_globs env files).out_file ∧
    (main_run prev true file_sep src_dir src_globs env files).out_file ≠
      none := by
  unfold main_run
  cases h : write_records file_sep env src_dir src_globs files "" <;> simp [h]
